import Mathlib

/-
  Verification of the AuraPurchasesManagement pipeline.

  Shallow embedding of the two services:
  - CustomerFacingService: pydantic request/event models, the Kafka producer
    (kafka/kafak_producer.py) and the /buy and /getAllUserBuys endpoints (main.py).
  - CustomerManagementAPI: the pydantic Purchase model, the Kafka consumer
    (kafka/kafka_consumer.py), the database manager and the /purchases endpoint.

  Conventions of the embedding:
  - JSON numbers (prices) are modelled as rationals.
  - datetimes are modelled as integer ticks (the derived `timestamp_dt` value).
  - A raw wire payload is a record of optional fields: `none` models a missing
    (or null / wrongly typed, hence rejected) field.
  - Python `str.strip()` is modelled by `pyStrip` (drop leading and trailing
    whitespace characters).
  - Fallible operations return `Option` / `Except`; an unhandled Python
    exception is an `Except.error`.
-/

namespace AuraPurchases

/-- Python `str.strip()`: remove leading and trailing whitespace. -/
def pyStrip (s : String) : String :=
  ⟨((s.data.dropWhile Char.isWhitespace).reverse.dropWhile
      Char.isWhitespace).reverse⟩

/-- A raw wire payload (a JSON object) carrying the five purchase fields;
`none` models a missing field. -/
structure RawPayload where
  username : Option String
  user_id : Option String
  item_name : Option String
  price : Option ℚ
  timestamp : Option String
deriving DecidableEq, Repr

namespace CustomerManagementAPI

/-- `data_model/purchase.py` `Purchase`: the consumer-side pydantic model.
All five fields are required; `price` carries `gt=0`. There is no constraint
on `username` / `user_id` beyond being strings. -/
structure Purchase where
  username : String
  user_id : String
  item_name : String
  price : ℚ
  timestamp : String
deriving DecidableEq, Repr

/-- The effect of `Purchase(**purchase_data)`: pydantic validation of a raw
payload against the consumer-side model. Succeeds exactly when all five
fields are present and `price > 0`; field values pass through unchanged
(the model has no trimming validators). -/
def Purchase.validate : RawPayload → Option Purchase
  | ⟨some un, some uid, some it, some pr, some ts⟩ =>
      if 0 < pr then some ⟨un, uid, it, pr, ts⟩ else none
  | _ => none

end CustomerManagementAPI

namespace CustomerFacingService

/-- The raw body of a POST /buy request: the caller supplies only
`username` and `user_id`. -/
structure BuyRaw where
  username : Option String
  user_id : Option String
deriving DecidableEq, Repr

/-- `data_model/buy.py` `BuyRequest` after validation. -/
structure BuyRequest where
  username : String
  user_id : String
deriving DecidableEq, Repr

/-- One `BuyRequest` string field: pydantic first applies
`min_length=1, max_length=100` to the raw value, then the field validator
strips surrounding whitespace and rejects a value that is empty after
stripping, returning the stripped value. -/
def validateBuyField (v : String) : Option String :=
  if 1 ≤ v.length ∧ v.length ≤ 100 then
    if pyStrip v = "" then none else some (pyStrip v)
  else none

/-- The effect of constructing `BuyRequest` from a raw body. -/
def BuyRequest.validate : BuyRaw → Option BuyRequest
  | ⟨some un, some uid⟩ =>
      match validateBuyField un, validateBuyField uid with
      | some u, some i => some ⟨u, i⟩
      | _, _ => none
  | _ => none

/-- `data_model/purchase.py` `PurchaseEvent`: the event published to Kafka.
Same shape as the consumer-side model, `price` carries `gt=0`. -/
structure PurchaseEvent where
  username : String
  user_id : String
  item_name : String
  price : ℚ
  timestamp : String
deriving DecidableEq, Repr

/-- A catalog item (an entry of `RANDOM_ITEMS` in `main.py`). -/
structure Item where
  name : String
  price : ℚ
deriving DecidableEq, Repr

/-- `main.py` `generate_purchase_event`: builds the `PurchaseEvent` from a
validated `BuyRequest`, the selected item and the generated timestamp.
Pydantic rejects the construction when the item price is not positive. -/
def generate_purchase_event (b : BuyRequest) (item : Item) (now : String) :
    Option PurchaseEvent :=
  if 0 < item.price then
    some ⟨b.username, b.user_id, item.name, item.price, now⟩
  else none

/-- `kafak_producer.py` `key_serializer`:
`lambda k: k.encode('utf-8') if k else None` — the UTF-8 bytes of the key,
or `None` for an empty (falsy) key. -/
def key_serializer (k : String) : Option (List UInt8) :=
  if k = "" then none else some k.toUTF8.toList

/-- The message key chosen by the `/buy` endpoint in `main.py`:
`key=purchase_event.user_id`. -/
def buyPublishKey (e : PurchaseEvent) : String :=
  e.user_id

/-- Broker acknowledgment metadata (`RecordMetadata`). -/
structure RecordMetadata where
  topic : String
  partition : ℕ
  offset : ℕ
deriving DecidableEq, Repr

/-- Observable state of `kafka/kafak_producer.py` `KafkaProducer`:
`producer` models `self.producer is not None`, the rest are the mutable
attributes set in `__init__`. Datetimes are integer ticks. -/
structure ProducerState where
  producer : Bool
  connected : Bool
  messages_sent : ℕ
  messages_failed : ℕ
  last_message_time : Option ℕ
deriving DecidableEq, Repr

/-- The producer as constructed by `__init__`. -/
def KafkaProducer.init : ProducerState :=
  { producer := false, connected := false, messages_sent := 0,
    messages_failed := 0, last_message_time := none }

/-- `KafkaProducer.is_connected`: pure predicate over the state. -/
def is_connected (s : ProducerState) : Bool :=
  s.connected && s.producer

/-- Startup / connection failures surfaced by `start()`. -/
inductive StartError
  | connectError
deriving DecidableEq, Repr

/-- `KafkaProducer.start`: assigns `self.producer`, then awaits the broker
connection (`connectOk` models whether the broker is reachable). On success
sets `connected = True`; on `KafkaError` (or any exception) sets
`connected = False` and re-raises. -/
def KafkaProducer.start (s : ProducerState) (connectOk : Bool) :
    ProducerState × Except StartError Unit :=
  if connectOk then
    ({ s with producer := true, connected := true }, .ok ())
  else
    ({ s with producer := true, connected := false }, .error .connectError)

/-- `KafkaProducer.stop`: if a producer instance exists, flushes and closes
it inside `try/except` (any exception is caught and only logged —
`flushFails` models whether flushing raised); in every case it then sets
`connected = False` and returns normally. -/
def KafkaProducer.stop (s : ProducerState) (_flushFails : Bool) :
    ProducerState × Except StartError Unit :=
  ({ s with connected := false }, .ok ())

/-- The broker-side outcome of one awaited send. -/
inductive SendOutcome
  | success (md : RecordMetadata)
  | timeout
  | kafkaError
  | otherError
deriving DecidableEq, Repr

/-- Errors raised by `send_message` / `send_batch`:
`notConnected` is the `ValueError("Kafka producer is not connected")`,
`kafkaError` is the (re-)raised `KafkaError`. -/
inductive SendError
  | notConnected
  | kafkaError
deriving DecidableEq, Repr

/-- `KafkaProducer.send_message`: raises `notConnected` when
`is_connected()` is false; otherwise, on acknowledgment increments
`messages_sent` and records `last_message_time`, returning the metadata;
on `KafkaTimeoutError`, `KafkaError`, or any other exception increments
`messages_failed` and raises a `KafkaError`. -/
def send_message (s : ProducerState) (outcome : SendOutcome) (now : ℕ) :
    ProducerState × Except SendError RecordMetadata :=
  if is_connected s = false then (s, .error .notConnected)
  else
    match outcome with
    | .success md =>
        ({ s with messages_sent := s.messages_sent + 1,
                  last_message_time := some now }, .ok md)
    | .timeout =>
        ({ s with messages_failed := s.messages_failed + 1 },
         .error .kafkaError)
    | .kafkaError =>
        ({ s with messages_failed := s.messages_failed + 1 },
         .error .kafkaError)
    | .otherError =>
        ({ s with messages_failed := s.messages_failed + 1 },
         .error .kafkaError)

/-- One iteration of the acknowledgment loop of `send_batch`: awaiting the
i-th future inside `try/except` appends its metadata and increments
`messages_sent`, or appends `None` and increments `messages_failed`. -/
def batchStep (acc : ProducerState × List (Option RecordMetadata))
    (r : Option RecordMetadata) :
    ProducerState × List (Option RecordMetadata) :=
  match r with
  | some md =>
      ({ acc.1 with messages_sent := acc.1.messages_sent + 1 },
       acc.2 ++ [some md])
  | none =>
      ({ acc.1 with messages_failed := acc.1.messages_failed + 1 },
       acc.2 ++ [none])

/-- The enqueue loop of `send_batch`: for each message, in order,
`await self.producer.send(...)` yields a future, modelled by the message's
index. This await sits outside any `try/except`, so when the send coroutine
itself raises (`enqueueOk i = false`: metadata or buffer-allocation timeout,
serialization failure, ... for the i-th message) the loop — and with it the
whole call — aborts immediately, collecting nothing. -/
def enqueueLoop (enqueueOk : ℕ → Bool) :
    List (String × RawPayload) → ℕ → Option (List ℕ)
  | [], _ => some []
  | _ :: rest, i =>
      if enqueueOk i then
        match enqueueLoop enqueueOk rest (i + 1) with
        | some futs => some (i :: futs)
        | none => none
      else none

/-- `KafkaProducer.send_batch`: raises `notConnected` when not connected;
otherwise runs the unprotected enqueue loop — a raise there aborts the
whole call with a `KafkaError`, leaving counters and state unchanged and
returning no result list — and only then awaits the collected futures one
by one, each inside its own `try/except` (`deliver i` models the broker
outcome of the i-th future), finally recording `last_message_time` and
returning the collected outcome list. -/
def send_batch (s : ProducerState) (messages : List (String × RawPayload))
    (enqueueOk : ℕ → Bool) (deliver : ℕ → Option RecordMetadata) (now : ℕ) :
    ProducerState × Except SendError (List (Option RecordMetadata)) :=
  if is_connected s = false then (s, .error .notConnected)
  else
    match enqueueLoop enqueueOk messages 0 with
    | none => (s, .error .kafkaError)
    | some futs =>
        let out := (futs.map deliver).foldl batchStep (s, [])
        ({ out.1 with last_message_time := some now }, .ok out.2)

/-- What one upstream round trip of the Query Gateway can yield: an HTTP
response (whose body may or may not parse and validate as the expected
shape), a timeout, or a connection error. -/
inductive UpstreamResult (α : Type)
  | response (statusCode : ℕ) (body : Option α)
  | timeout
  | connectError
deriving DecidableEq, Repr

/-- The caller-visible outcome of the gateway endpoint: a passed-through
payload, HTTP 404, HTTP 503, or HTTP 500. -/
inductive GatewayOutcome (α : Type)
  | ok (value : α)
  | notFound
  | unavailable
  | internalError
deriving DecidableEq, Repr

/-- A non-success upstream result: any status other than 200, a timeout,
or a connection error. -/
def UpstreamResult.isFailure : UpstreamResult α → Bool
  | .response code _ => code != 200
  | .timeout => true
  | .connectError => true

/-- `main.py` `get_all_user_purchases` (the Query Gateway): forwards the
lookup upstream; maps upstream 404 to HTTP 404, any other non-200 status
to HTTP 503, a timeout or connection error to HTTP 503; on status 200
parses the body and passes it through (`UserPurchasesResponse(**data)`,
whose failure — like any other unexpected exception — becomes HTTP 500). -/
def get_all_user_purchases (r : UpstreamResult α) : GatewayOutcome α :=
  match r with
  | .response code body =>
      if code = 404 then .notFound
      else if code ≠ 200 then .unavailable
      else
        match body with
        | some data => .ok data
        | none => .internalError
  | .timeout => .unavailable
  | .connectError => .unavailable

end CustomerFacingService

/-- The Python pattern of collecting `f` over a list where each application
may raise: succeeds with the list of results iff every application
succeeds (models `[PurchaseResponse(**p) for p in purchases]` and
`sum(p["price"] for p in purchases)` under exceptions). -/
def collectSome {α β : Type} (f : α → Option β) : List α → Option (List β)
  | [] => some []
  | a :: as =>
      match f a, collectSome f as with
      | some b, some bs => some (b :: bs)
      | _, _ => none

/-- Python `round(x, 2)` on exact decimal input: round half to even at the
second decimal place. -/
def roundHalfEven (q : ℚ) : ℤ :=
  if Int.fract q < 1/2 then ⌊q⌋
  else if (1 : ℚ)/2 < Int.fract q then ⌊q⌋ + 1
  else if ⌊q⌋ % 2 = 0 then ⌊q⌋ else ⌊q⌋ + 1

/-- `round(x, 2)`. -/
def pythonRound2 (q : ℚ) : ℚ :=
  (roundHalfEven (q * 100) : ℚ) / 100

namespace CustomerManagementAPI

/-- Observable state of `kafka/kafka_consumer.py` `KafkaConsumer`:
`consumer` models `self.consumer is not None`, the rest are the mutable
attributes set in `__init__`. -/
structure ConsumerState where
  consumer : Bool
  running : Bool
  messages_processed : ℕ
  messages_failed : ℕ
  last_message_time : Option ℕ
deriving DecidableEq, Repr

/-- The consumer as constructed by `__init__`. -/
def KafkaConsumer.init : ConsumerState :=
  { consumer := false, running := false, messages_processed := 0,
    messages_failed := 0, last_message_time := none }

/-- `KafkaConsumer.is_running`: pure predicate over the state. -/
def is_running (s : ConsumerState) : Bool :=
  s.running && s.consumer

/-- `KafkaConsumer.start`: assigns `self.consumer`, then awaits the broker
connection. On success sets `running = True` and spawns the poll loop; on
`KafkaError` (or any exception) re-raises, leaving `running` untouched. -/
def KafkaConsumer.start (s : ConsumerState) (connectOk : Bool) :
    ConsumerState × Except CustomerFacingService.StartError Unit :=
  if connectOk then
    ({ s with consumer := true, running := true }, .ok ())
  else
    ({ s with consumer := true }, .error .connectError)

/-- The value of one fetched record as seen by `_process_message`:
either a structurally malformed record (unpacking it into the model
raises), or a well-formed payload. -/
inductive MessageValue
  | malformed
  | payload (p : RawPayload)
deriving DecidableEq, Repr

/-- `KafkaConsumer._process_message`: builds `Purchase(**purchase_data)`
(a `ValueError` — including pydantic validation failure — lands in the
first `except`, incrementing `messages_failed`); then saves via the
database manager (`save` models `db_manager.save_purchase`, `none` being a
raised exception, landing in the second `except`, incrementing
`messages_failed`); on success increments `messages_processed` and records
`last_message_time`. -/
def process_message (s : ConsumerState) (save : Purchase → Option String)
    (m : MessageValue) (now : ℕ) : ConsumerState :=
  match m with
  | .malformed => { s with messages_failed := s.messages_failed + 1 }
  | .payload p =>
      match Purchase.validate p with
      | none => { s with messages_failed := s.messages_failed + 1 }
      | some pu =>
          match save pu with
          | none => { s with messages_failed := s.messages_failed + 1 }
          | some _ =>
              { s with messages_processed := s.messages_processed + 1,
                       last_message_time := some now }

/-- What one fetched record's raw bytes can be: not valid JSON — the
consumer's `value_deserializer` (`json.loads`) raises inside the
`async for` itself — or a successfully deserialized value handed to
`_process_message`. -/
inductive WireRecord
  | undecodable
  | decoded (v : MessageValue)
deriving DecidableEq, Repr

/-- `KafkaConsumer._consume_loop` restricted to a finite stream of fetched
records: each deserialized record is processed in order; a JSON-undecodable
record raises in the `async for` itself, outside `_process_message`, where
the loop's blanket `except Exception` catches it and ends the loop — no
counter is touched and the remaining records are never processed. -/
def consume_stream (s : ConsumerState) (save : Purchase → Option String)
    (msgs : List WireRecord) (now : ℕ) : ConsumerState :=
  match msgs with
  | [] => s
  | .undecodable :: _ => s
  | .decoded v :: rest =>
      consume_stream (process_message s save v now) save rest now

/-- Whether `_process_message` reaches its success path on a record:
the payload is well formed, validates as a `Purchase`, and persists. -/
def recordSucceeds (save : Purchase → Option String) (m : MessageValue) :
    Bool :=
  match m with
  | .malformed => false
  | .payload p =>
      match Purchase.validate p with
      | none => false
      | some pu => (save pu).isSome

/-- A MongoDB document of the purchases collection, after `_id` has been
stringified: the purchase fields (each possibly absent in a document) plus
the derived sortable `timestamp_dt` value added by `save_purchase`. -/
structure StoredDoc where
  id : String
  username : Option String
  user_id : String
  item_name : Option String
  price : Option ℚ
  timestamp : Option String
  timestamp_dt : ℤ
deriving DecidableEq, Repr

/-- The Mongo sort order used by the query: descending `timestamp_dt`
(newest first). -/
def byTimestampDesc (a b : StoredDoc) : Prop :=
  b.timestamp_dt ≤ a.timestamp_dt

instance : DecidableRel byTimestampDesc :=
  fun a b => inferInstanceAs (Decidable (b.timestamp_dt ≤ a.timestamp_dt))

instance : IsTotal StoredDoc byTimestampDesc :=
  ⟨fun a b => le_total b.timestamp_dt a.timestamp_dt⟩

instance : IsTrans StoredDoc byTimestampDesc :=
  ⟨fun _ _ _ h1 h2 => le_trans h2 h1⟩

/-- `database_manager.py` `DatabaseManager.get_user_purchases`:
`find({"user_id": user_id}).sort("timestamp_dt", -1)` — the user's
documents, sorted newest first. -/
def DatabaseManager.get_user_purchases (db : List StoredDoc)
    (uid : String) : List StoredDoc :=
  List.insertionSort byTimestampDesc (db.filter (fun d => d.user_id == uid))

/-- `data_model/purchase.py` `PurchaseResponse`: `Purchase` plus the `_id`
field. Constructing it from a document (`PurchaseResponse(**purchase)`)
requires all purchase fields to be present and `price > 0`. -/
structure PurchaseResponse where
  id : String
  username : String
  user_id : String
  item_name : String
  price : ℚ
  timestamp : String
deriving DecidableEq, Repr

/-- The effect of `PurchaseResponse(**purchase)` on a stored document. -/
def PurchaseResponse.ofDoc : StoredDoc → Option PurchaseResponse
  | ⟨i, some un, uid, some it, some pr, some ts, _⟩ =>
      if 0 < pr then some ⟨i, un, uid, it, pr, ts⟩ else none
  | _ => none

/-- `data_model/purchase.py` `UserPurchasesResponse`. -/
structure UserPurchasesResponse where
  user_id : String
  username : Option String
  total_purchases : ℕ
  total_spent : ℚ
  purchases : List PurchaseResponse
deriving DecidableEq, Repr

/-- The caller-visible outcome of `/purchases/{user_id}`: a response,
HTTP 404, or HTTP 500 (any exception other than the explicit 404). -/
inductive ApiOutcome (α : Type)
  | ok (value : α)
  | notFound
  | internalError
deriving DecidableEq, Repr

/-- `main.py` `get_user_purchases` (the storage-side history endpoint):
queries the user's documents newest first; 404 when there are none;
computes `total_purchases = len`, `total_spent = sum of prices`,
`username = purchases[0].get("username", "Unknown")`; builds one
`PurchaseResponse` per document; any exception along the way (missing
`price` key, a document rejected by `PurchaseResponse`) yields HTTP 500;
the returned `total_spent` is `round(total_spent, 2)`. -/
def get_user_purchases (db : List StoredDoc) (uid : String) :
    ApiOutcome UserPurchasesResponse :=
  if (DatabaseManager.get_user_purchases db uid).isEmpty then .notFound
  else
    match collectSome (fun d => d.price)
        (DatabaseManager.get_user_purchases db uid) with
    | none => .internalError
    | some prices =>
        match collectSome PurchaseResponse.ofDoc
            (DatabaseManager.get_user_purchases db uid) with
        | none => .internalError
        | some prs =>
            .ok { user_id := uid,
                  username := some
                    (match (DatabaseManager.get_user_purchases db uid).head? with
                     | some d => d.username.getD "Unknown"
                     | none => "Unknown"),
                  total_purchases :=
                    (DatabaseManager.get_user_purchases db uid).length,
                  total_spent := pythonRound2 prices.sum,
                  purchases := prs }

end CustomerManagementAPI

/-! ## Theorems about the embedded program -/

open CustomerFacingService CustomerManagementAPI

/-- C8: when establishing the broker connection fails, the Producer's
`start()` fails with a connection error and leaves `is_connected()` false,
and the Consumer's `start()` fails with a `ConnectError` and leaves
`is_running()` false (its `running` flag, false while stopped, is never
set on the failure path). -/
theorem C8_failed_connect_leaves_stopped
    (p : ProducerState) (c : ConsumerState) (hc : c.running = false) :
    (KafkaProducer.start p false).2 = .error .connectError ∧
    is_connected (KafkaProducer.start p false).1 = false ∧
    (KafkaConsumer.start c false).2 = .error .connectError ∧
    is_running (KafkaConsumer.start c false).1 = false := by
  refine ⟨rfl, ?_, rfl, ?_⟩
  · simp [KafkaProducer.start, is_connected]
  · simp [KafkaConsumer.start, is_running, hc]

/-- Witness for C8 at the freshly constructed producer and consumer. -/
theorem C8_witness :
    is_connected (KafkaProducer.start KafkaProducer.init false).1 = false ∧
    is_running (KafkaConsumer.start KafkaConsumer.init false).1 = false :=
  ⟨(C8_failed_connect_leaves_stopped KafkaProducer.init KafkaConsumer.init
      rfl).2.1,
   (C8_failed_connect_leaves_stopped KafkaProducer.init KafkaConsumer.init
      rfl).2.2.2⟩

/-- C9: the Producer's `stop()` always returns normally (even when flushing
raises, and when already disconnected), leaves `is_connected()` false, and
is idempotent: a second `stop()` leaves the state of the first unchanged. -/
theorem C9_stop_idempotent (s : ProducerState) (f1 f2 : Bool) :
    (KafkaProducer.stop s f1).2 = .ok () ∧
    is_connected (KafkaProducer.stop s f1).1 = false ∧
    (KafkaProducer.stop (KafkaProducer.stop s f1).1 f2).1 =
      (KafkaProducer.stop s f1).1 := by
  refine ⟨rfl, ?_, rfl⟩
  simp [KafkaProducer.stop, is_connected]

/-- C3: `send_message` fails with the not-connected error when
`is_connected()` is false, leaving the state unchanged; when connected, a
success increments `messages_sent` by exactly one and records the send
time, and every failure (timeout, broker error, or anything else)
increments `messages_failed` by exactly one, leaves `messages_sent`
unchanged, and raises. -/
theorem C3_send_message_counters (s : ProducerState) (o : SendOutcome)
    (now : ℕ) :
    (is_connected s = false →
        send_message s o now = (s, .error .notConnected)) ∧
    (is_connected s = true →
      (∀ md, o = .success md →
          send_message s o now =
            ({ s with messages_sent := s.messages_sent + 1,
                      last_message_time := some now }, .ok md)) ∧
      ((o = .timeout ∨ o = .kafkaError ∨ o = .otherError) →
          (send_message s o now).1.messages_failed =
              s.messages_failed + 1 ∧
          (send_message s o now).1.messages_sent = s.messages_sent ∧
          (send_message s o now).2 = .error .kafkaError)) := by
  constructor
  · intro h
    simp [send_message, h]
  · intro h
    constructor
    · intro md hmd
      subst hmd
      simp [send_message, h]
    · rintro (ho | ho | ho) <;> subst ho <;> simp [send_message, h]

/-- Witness for C3: a successful send on a connected producer with empty
counters, and a timed-out send on the same producer. -/
theorem C3_witness :
    send_message ⟨true, true, 0, 0, none⟩
        (.success ⟨"purchases", 0, 0⟩) 5 =
      (⟨true, true, 1, 0, some 5⟩, .ok ⟨"purchases", 0, 0⟩) ∧
    (send_message ⟨true, true, 0, 0, none⟩ .timeout 5).1.messages_failed =
      0 + 1 :=
  ⟨((C3_send_message_counters ⟨true, true, 0, 0, none⟩
        (.success ⟨"purchases", 0, 0⟩) 5).2 rfl).1 ⟨"purchases", 0, 0⟩ rfl,
   (((C3_send_message_counters ⟨true, true, 0, 0, none⟩ .timeout 5).2
        rfl).2 (Or.inl rfl)).1⟩

/-- The acknowledgment loop of `send_batch` appends exactly its input
outcomes, in order, to the accumulator. -/
theorem batch_foldl_collects (rs : List (Option RecordMetadata)) :
    ∀ (s : ProducerState) (acc : List (Option RecordMetadata)),
      (rs.foldl batchStep (s, acc)).2 = acc ++ rs := by
  induction rs with
  | nil => intro s acc; simp
  | cons r rs ih =>
      intro s acc
      cases r <;> simp [batchStep, ih]

/-- When every enqueue in range succeeds, the enqueue loop collects one
future per message, in order. -/
theorem enqueueLoop_all_ok (enqueueOk : ℕ → Bool) :
    ∀ (msgs : List (String × RawPayload)) (j : ℕ),
      (∀ i, j ≤ i → i < j + msgs.length → enqueueOk i = true) →
      enqueueLoop enqueueOk msgs j = some (List.range' j msgs.length) := by
  intro msgs
  induction msgs with
  | nil => intro j _; rfl
  | cons m rest ih =>
      intro j h
      have hj : enqueueOk j = true := h j le_rfl (by simp)
      have hrest : ∀ i, j + 1 ≤ i → i < j + 1 + rest.length →
          enqueueOk i = true := by
        intro i h1 h2
        exact h i (by omega) (by simp only [List.length_cons]; omega)
      unfold enqueueLoop
      rw [if_pos hj, ih (j + 1) hrest, List.length_cons, List.range'_succ]

/-- A failing enqueue anywhere in range makes the enqueue loop raise. -/
theorem enqueueLoop_abort (enqueueOk : ℕ → Bool) :
    ∀ (msgs : List (String × RawPayload)) (j i : ℕ), j ≤ i →
      i < j + msgs.length → enqueueOk i = false →
      enqueueLoop enqueueOk msgs j = none := by
  intro msgs
  induction msgs with
  | nil =>
      intro j i h1 h2 _
      simp only [List.length_nil, Nat.add_zero] at h2
      omega
  | cons m rest ih =>
      intro j i h1 h2 h3
      unfold enqueueLoop
      by_cases hj : enqueueOk j = true
      · rw [if_pos hj]
        have hij : j + 1 ≤ i := by
          rcases Nat.eq_or_lt_of_le h1 with he | hl
          · subst he; rw [hj] at h3; exact absurd h3 (by simp)
          · omega
        rw [ih (j + 1) i hij (by simp only [List.length_cons] at h2; omega) h3]
      · rw [if_neg hj]

/-- C2 counterexample: on a connected producer, a batch of one message
whose enqueue (`await producer.send`, outside any `try/except`) raises
aborts the whole call with an exception — the caller receives no result
list at all, not a list with one outcome per input. -/
theorem C2_counterexample :
    (send_batch ⟨true, true, 0, 0, none⟩
        [("user_123", ⟨some "john", some "user_123", some "Laptop",
            some 5, some "t"⟩)]
        (fun _ => false) (fun _ => none) 9).2 =
      .error .kafkaError := rfl

/-- C2 (amended): on a connected producer, when every per-message enqueue
succeeds, `send_batch` returns (never raises) the list of the N per-input
acknowledgment outcomes, in input order — an acknowledgment failure of one
message contributes a `None` entry without aborting the rest; but when the
enqueue of any message raises, the whole call aborts with a `KafkaError`
and no result list, leaving the producer state unchanged. -/
theorem C2_amended_outcomes (s : ProducerState)
    (messages : List (String × RawPayload)) (enqueueOk : ℕ → Bool)
    (deliver : ℕ → Option RecordMetadata) (now : ℕ)
    (h : is_connected s = true) :
    ((∀ i, i < messages.length → enqueueOk i = true) →
      (send_batch s messages enqueueOk deliver now).2 =
        .ok ((List.range messages.length).map deliver) ∧
      ((List.range messages.length).map deliver).length = messages.length ∧
      ∀ i, i < messages.length →
        ((List.range messages.length).map deliver)[i]? = some (deliver i)) ∧
    (∀ i, i < messages.length → enqueueOk i = false →
      send_batch s messages enqueueOk deliver now =
        (s, .error .kafkaError)) := by
  constructor
  · intro hok
    have henq : enqueueLoop enqueueOk messages 0 =
        some (List.range' 0 messages.length) :=
      enqueueLoop_all_ok enqueueOk messages 0
        (fun i _ h2 => hok i (by omega))
    refine ⟨?_, by simp, ?_⟩
    · simp only [send_batch, h, henq]
      simp [batch_foldl_collects, List.range_eq_range']
    · intro i hi
      simp [List.getElem?_map, List.getElem?_range, hi]
  · intro i hi hfail
    have habort : enqueueLoop enqueueOk messages 0 = none :=
      enqueueLoop_abort enqueueOk messages 0 i (Nat.zero_le i)
        (by omega) hfail
    simp only [send_batch, h, habort]
    simp

/-- Witness for C2 (amended): a two-message batch where both enqueues
succeed and the second acknowledgment fails still yields both outcomes in
order, while the same batch aborts wholesale when the second enqueue
raises. -/
theorem C2_witness :
    (send_batch ⟨true, true, 0, 0, none⟩
        [("user_123", ⟨some "john", some "user_123", some "Laptop",
            some 5, some "t"⟩),
         ("user_456", ⟨some "jane", some "user_456", some "Phone",
            some 7, some "t"⟩)]
        (fun _ => true)
        (fun i => if i = 0 then some ⟨"purchases", 0, 0⟩ else none) 9).2 =
      .ok ((List.range 2).map
        (fun i => if i = 0 then some ⟨"purchases", 0, 0⟩ else none)) ∧
    send_batch ⟨true, true, 0, 0, none⟩
        [("user_123", ⟨some "john", some "user_123", some "Laptop",
            some 5, some "t"⟩),
         ("user_456", ⟨some "jane", some "user_456", some "Phone",
            some 7, some "t"⟩)]
        (fun i => decide (i = 0))
        (fun i => if i = 0 then some ⟨"purchases", 0, 0⟩ else none) 9 =
      (⟨true, true, 0, 0, none⟩, .error .kafkaError) :=
  ⟨((C2_amended_outcomes ⟨true, true, 0, 0, none⟩
      [("user_123", ⟨some "john", some "user_123", some "Laptop",
          some 5, some "t"⟩),
       ("user_456", ⟨some "jane", some "user_456", some "Phone",
          some 7, some "t"⟩)]
      (fun _ => true)
      (fun i => if i = 0 then some ⟨"purchases", 0, 0⟩ else none) 9
      rfl).1 (fun _ _ => rfl)).1,
   (C2_amended_outcomes ⟨true, true, 0, 0, none⟩
      [("user_123", ⟨some "john", some "user_123", some "Laptop",
          some 5, some "t"⟩),
       ("user_456", ⟨some "jane", some "user_456", some "Phone",
          some 7, some "t"⟩)]
      (fun i => decide (i = 0))
      (fun i => if i = 0 then some ⟨"purchases", 0, 0⟩ else none) 9
      rfl).2 1 (by decide) (by decide)⟩

/-- `_process_message` increments `messages_processed` by one exactly on
its success path and `messages_failed` by one otherwise. -/
theorem process_message_step (s : ConsumerState)
    (save : Purchase → Option String) (m : MessageValue) (now : ℕ) :
    (process_message s save m now).messages_processed =
      s.messages_processed +
        (if recordSucceeds save m then 1 else 0) ∧
    (process_message s save m now).messages_failed =
      s.messages_failed +
        (if recordSucceeds save m then 0 else 1) := by
  cases m with
  | malformed => simp [process_message, recordSucceeds]
  | payload p =>
      cases hv : Purchase.validate p with
      | none => simp [process_message, recordSucceeds, hv]
      | some pu =>
          cases hs : save pu with
          | none => simp [process_message, recordSucceeds, hv, hs]
          | some pid => simp [process_message, recordSucceeds, hv, hs]

/-- C1 counterexample: a single record whose bytes are not valid JSON
raises in the consumer's `value_deserializer` inside the `async for`; the
loop's blanket `except Exception` catches it and ends the loop with both
counters unchanged — the failed counter does not increase by one for this
malformed record, and the two counter increments (0 and 0) do not
partition the one-record stream. -/
theorem C1_counterexample :
    consume_stream ⟨true, true, 0, 0, none⟩ (fun _ => some "id")
        [WireRecord.undecodable] 7 =
      ⟨true, true, 0, 0, none⟩ ∧ (0 + 0 : ℕ) ≠ 1 := by
  exact ⟨rfl, by decide⟩

/-- C1 (amended): over a finite stream in which every record's bytes
decode as JSON, the processed counter grows by exactly the number of
records that reach the success path, the failed counter by exactly the
number that do not (unpacking/validation failure or persistence failure),
and the two increments partition the record count; a JSON-undecodable
record instead terminates the poll loop on the spot, with both counters
exactly as they were and all later records left unprocessed. -/
theorem C1_amended_counters (s : ConsumerState)
    (save : Purchase → Option String) (vs : List MessageValue)
    (rest : List WireRecord) (now : ℕ) :
    ((consume_stream s save (vs.map WireRecord.decoded) now).messages_processed =
        s.messages_processed + vs.countP (fun m => recordSucceeds save m) ∧
     (consume_stream s save (vs.map WireRecord.decoded) now).messages_failed =
        s.messages_failed + vs.countP (fun m => !recordSucceeds save m) ∧
     vs.countP (fun m => recordSucceeds save m) +
        vs.countP (fun m => !recordSucceeds save m) = vs.length) ∧
    consume_stream s save (vs.map WireRecord.decoded ++
        WireRecord.undecodable :: rest) now =
      consume_stream s save (vs.map WireRecord.decoded) now := by
  induction vs generalizing s with
  | nil =>
      exact ⟨⟨by simp [consume_stream], by simp [consume_stream], by simp⟩,
        rfl⟩
  | cons v vs ih =>
      obtain ⟨⟨ih1, ih2, ih3⟩, ih4⟩ := ih (process_message s save v now)
      have hstep := process_message_step s save v now
      refine ⟨⟨?_, ?_, ?_⟩, ?_⟩
      · show (consume_stream (process_message s save v now) save
            (vs.map WireRecord.decoded) now).messages_processed = _
        rw [ih1, hstep.1, List.countP_cons]
        by_cases hm : recordSucceeds save v <;> simp [hm] <;> omega
      · show (consume_stream (process_message s save v now) save
            (vs.map WireRecord.decoded) now).messages_failed = _
        rw [ih2, hstep.2, List.countP_cons]
        by_cases hm : recordSucceeds save v <;> simp [hm] <;> omega
      · rw [List.countP_cons, List.countP_cons, List.length_cons]
        by_cases hm : recordSucceeds save v <;> simp [hm] <;> omega
      · show consume_stream (process_message s save v now) save
            (vs.map WireRecord.decoded ++ WireRecord.undecodable :: rest)
            now = _
        exact ih4

/-- C6: the Query Gateway maps an upstream 404 to the NotFound outcome, an
upstream timeout or connection failure to the Unavailable outcome, any
other non-200 status to Unavailable, and passes a successful (status 200,
well-formed) upstream payload through; NotFound and Unavailable are
distinct, and every non-success upstream result lands in one of them. -/
theorem C6_gateway_mapping {α : Type} (code : ℕ) (body : Option α)
    (data : α) (r : UpstreamResult α) :
    get_all_user_purchases (UpstreamResult.response 404 body) =
      .notFound ∧
    get_all_user_purchases (UpstreamResult.timeout : UpstreamResult α) =
      .unavailable ∧
    get_all_user_purchases
        (UpstreamResult.connectError : UpstreamResult α) = .unavailable ∧
    (code ≠ 404 → code ≠ 200 →
        get_all_user_purchases (UpstreamResult.response code body) =
          .unavailable) ∧
    get_all_user_purchases (UpstreamResult.response 200 (some data)) =
      .ok data ∧
    GatewayOutcome.notFound ≠ (GatewayOutcome.unavailable : GatewayOutcome α) ∧
    (r.isFailure = true →
        get_all_user_purchases r = .notFound ∨
        get_all_user_purchases r = .unavailable) := by
  refine ⟨rfl, rfl, rfl, ?_, rfl, by simp, ?_⟩
  · intro h404 h200
    simp [get_all_user_purchases, h404, h200]
  · intro hf
    cases r with
    | response c b =>
        by_cases hc : c = 404
        · subst hc; left; rfl
        · right
          simp only [UpstreamResult.isFailure, ne_eq, bne_iff_ne] at hf
          simp [get_all_user_purchases, hc, hf]
    | timeout => right; rfl
    | connectError => right; rfl

/-- Witness for C6: an upstream 500 with an unparseable body maps to
Unavailable, and a failing upstream result maps to NotFound or
Unavailable. -/
theorem C6_witness :
    get_all_user_purchases (UpstreamResult.response 500 (none : Option ℕ)) =
      .unavailable ∧
    (get_all_user_purchases
        (UpstreamResult.timeout : UpstreamResult ℕ) = .notFound ∨
     get_all_user_purchases
        (UpstreamResult.timeout : UpstreamResult ℕ) = .unavailable) :=
  ⟨(C6_gateway_mapping 500 (none : Option ℕ) 0
      (UpstreamResult.response 500 none)).2.2.2.1 (by decide) (by decide),
   (C6_gateway_mapping 500 (none : Option ℕ) 0
      (UpstreamResult.timeout : UpstreamResult ℕ)).2.2.2.2.2.2 rfl⟩

/-- A `BuyRequest` field that validates is the stripped input and is
nonempty. -/
theorem validateBuyField_some {v x : String}
    (h : validateBuyField v = some x) : x = pyStrip v ∧ x ≠ "" := by
  unfold validateBuyField at h
  by_cases hlen : 1 ≤ v.length ∧ v.length ≤ 100
  · rw [if_pos hlen] at h
    by_cases ht : pyStrip v = ""
    · rw [if_pos ht] at h; exact absurd h (by simp)
    · rw [if_neg ht] at h
      simp only [Option.some.injEq] at h
      subst h
      exact ⟨rfl, ht⟩
  · rw [if_neg hlen] at h; exact absurd h (by simp)

/-- Destructing a successful `BuyRequest` validation: both raw fields are
present and each validates to the corresponding request field. -/
theorem BuyRequest.validate_fields {r : BuyRaw} {b : BuyRequest}
    (h : BuyRequest.validate r = some b) :
    ∃ un uid, r.username = some un ∧ r.user_id = some uid ∧
      validateBuyField un = some b.username ∧
      validateBuyField uid = some b.user_id := by
  obtain ⟨ou, oi⟩ := r
  cases ou with
  | none => simp [BuyRequest.validate] at h
  | some un =>
      cases oi with
      | none => simp [BuyRequest.validate] at h
      | some uid =>
          refine ⟨un, uid, rfl, rfl, ?_⟩
          have h2 : (match validateBuyField un, validateBuyField uid with
              | some u, some i => some (⟨u, i⟩ : BuyRequest)
              | _, _ => none) = some b := h
          cases hvu : validateBuyField un with
          | none => rw [hvu] at h2; exact absurd h2 (by simp)
          | some u =>
              cases hvi : validateBuyField uid with
              | none => rw [hvu, hvi] at h2; exact absurd h2 (by simp)
              | some i =>
                  rw [hvu, hvi] at h2
                  simp only [Option.some.injEq] at h2
                  subst h2
                  exact ⟨rfl, rfl⟩

/-- C5: for every purchase event that the `/buy` flow publishes (built from
a validated request), the broker message key is the event's `user_id`, its
serialized form is exactly the UTF-8 bytes of that string (the nonempty
key never hits the serializer's `None` branch), and any two events sharing
a `user_id` are published under the same key. -/
theorem C5_partition_key (r : BuyRaw) (b : BuyRequest) (item : Item)
    (now : String) (e : PurchaseEvent)
    (hb : BuyRequest.validate r = some b)
    (he : generate_purchase_event b item now = some e) :
    buyPublishKey e = e.user_id ∧
    e.user_id = b.user_id ∧
    key_serializer (buyPublishKey e) = some (e.user_id.toUTF8.toList) ∧
    ∀ e2 : PurchaseEvent, e2.user_id = e.user_id →
      key_serializer (buyPublishKey e2) =
        key_serializer (buyPublishKey e) := by
  have huid : e.user_id = b.user_id := by
    unfold generate_purchase_event at he
    by_cases hp : 0 < item.price
    · simp only [hp, if_true] at he
      rw [← Option.some_injective _ he]
    · simp [hp] at he
  have hne : b.user_id ≠ "" := by
    obtain ⟨un, uid, -, -, -, hvi⟩ := BuyRequest.validate_fields hb
    exact (validateBuyField_some hvi).2
  refine ⟨rfl, huid, ?_, ?_⟩
  · unfold key_serializer buyPublishKey
    rw [huid]
    simp [hne]
  · intro e2 h2
    unfold key_serializer buyPublishKey
    rw [h2]

/-- Witness for C5: the concrete buy flow for `user_123` publishes under
key `user_123` serialized as its UTF-8 bytes. -/
theorem C5_witness :
    key_serializer
        (buyPublishKey ⟨"john", "user_123", "Laptop", 5, "t"⟩) =
      some (("user_123" : String).toUTF8.toList) :=
  (C5_partition_key ⟨some " john ", some "user_123"⟩ ⟨"john", "user_123"⟩
      ⟨"Laptop", 5⟩ "t" ⟨"john", "user_123", "Laptop", 5, "t"⟩
      (by decide) (by decide)).2.2.1

/-- A raw field that is empty after stripping never validates. -/
theorem validateBuyField_none_of_strip_empty {v : String}
    (h : pyStrip v = "") : validateBuyField v = none := by
  unfold validateBuyField
  by_cases hlen : 1 ≤ v.length ∧ v.length ≤ 100
  · rw [if_pos hlen, if_pos h]
  · rw [if_neg hlen]

/-- C4 counterexample: the consuming-side validation (the `Purchase`
model) accepts a payload whose `username` is the whitespace-only string
`" "`, passing it through untrimmed — contradicting the claim that both
sides reject empty/whitespace-only `username` and trim accepted values. -/
theorem C4_counterexample :
    Purchase.validate ⟨some " ", some "u1", some "Laptop", some 5,
        some "t"⟩ =
      some ⟨" ", "u1", "Laptop", 5, "t"⟩ ∧
    pyStrip " " = "" := by
  exact ⟨by decide, rfl⟩

/-- C4 (amended): the two sides enforce different rule sets. The
consuming-side `Purchase` model accepts a payload exactly when all five
fields are present and `price > 0`, passing `username`/`user_id` through
unchanged (no trimming, no emptiness check). The producing-side
`BuyRequest` model requires both fields present, returns them stripped of
surrounding whitespace and nonempty, and rejects a missing field or one
that is empty/whitespace-only. -/
theorem C4_amended_validation (p : RawPayload) (r : BuyRaw) :
    ((Purchase.validate p).isSome ↔
        p.username.isSome ∧ p.user_id.isSome ∧ p.item_name.isSome ∧
        p.timestamp.isSome ∧ ∃ q, p.price = some q ∧ 0 < q) ∧
    (∀ e, Purchase.validate p = some e →
        p.username = some e.username ∧ p.user_id = some e.user_id) ∧
    (∀ b, BuyRequest.validate r = some b →
        ∃ un uid, r.username = some un ∧ r.user_id = some uid ∧
          b.username = pyStrip un ∧ b.user_id = pyStrip uid ∧
          b.username ≠ "" ∧ b.user_id ≠ "") ∧
    ((r.username = none ∨ r.user_id = none ∨
        (∃ un, r.username = some un ∧ pyStrip un = "") ∨
        (∃ uid, r.user_id = some uid ∧ pyStrip uid = "")) →
      BuyRequest.validate r = none) := by
  obtain ⟨ou, oi, oit, opr, ots⟩ := p
  refine ⟨?_, ?_, ?_, ?_⟩
  · cases ou <;> cases oi <;> cases oit <;> cases ots <;>
      cases opr <;> simp [Purchase.validate]
  · intro e he
    cases ou <;> cases oi <;> cases oit <;> cases ots <;>
        cases opr <;> simp [Purchase.validate] at he
    obtain ⟨hpr, he⟩ := he
    subst he
    exact ⟨rfl, rfl⟩
  · intro b hb
    obtain ⟨un, uid, h1, h2, h3, h4⟩ := BuyRequest.validate_fields hb
    obtain ⟨h5, h6⟩ := validateBuyField_some h3
    obtain ⟨h7, h8⟩ := validateBuyField_some h4
    exact ⟨un, uid, h1, h2, h5, h7, h6, h8⟩
  · rintro (h | h | ⟨un, hun, hst⟩ | ⟨uid, huid, hst⟩)
    · obtain ⟨ou, oi⟩ := r
      simp only at h
      subst h
      cases oi <;> rfl
    · obtain ⟨ou, oi⟩ := r
      simp only at h
      subst h
      cases ou <;> rfl
    · obtain ⟨ou, oi⟩ := r
      simp only at hun
      subst hun
      have hnone := validateBuyField_none_of_strip_empty hst
      cases oi with
      | none => rfl
      | some uid => simp [BuyRequest.validate, hnone]
    · obtain ⟨ou, oi⟩ := r
      simp only at huid
      subst huid
      have hnone := validateBuyField_none_of_strip_empty hst
      cases ou with
      | none => rfl
      | some un =>
          cases hvu : validateBuyField un <;>
            simp [BuyRequest.validate, hvu, hnone]

/-- Witness for C4 (amended): a well-formed payload is accepted by the
consuming side, and a whitespace-only `username` is rejected by the
producing side. -/
theorem C4_witness :
    (Purchase.validate ⟨some "john", some "u1", some "Laptop", some 5,
        some "t"⟩).isSome = true ∧
    BuyRequest.validate ⟨some " ", some "u1"⟩ = none :=
  ⟨(C4_amended_validation ⟨some "john", some "u1", some "Laptop", some 5,
        some "t"⟩ ⟨some " ", some "u1"⟩).1.mpr
      ⟨rfl, rfl, rfl, rfl, 5, rfl, by norm_num⟩,
   (C4_amended_validation ⟨some "john", some "u1", some "Laptop", some 5,
        some "t"⟩ ⟨some " ", some "u1"⟩).2.2.2
      (Or.inr (Or.inr (Or.inl ⟨" ", rfl, rfl⟩)))⟩

/-- A successful `collectSome` is the plain map of the (all-successful)
applications. -/
theorem collectSome_map {α β : Type} (f : α → Option β) (d : β) :
    ∀ {l : List α} {ys : List β}, collectSome f l = some ys →
      ys = l.map (fun a => (f a).getD d) := by
  intro l
  induction l with
  | nil =>
      intro ys h
      simp only [collectSome, Option.some.injEq] at h
      simp [← h]
  | cons a as ih =>
      intro ys h
      unfold collectSome at h
      cases hfa : f a with
      | none => rw [hfa] at h; exact absurd h (by simp)
      | some b =>
          cases hca : collectSome f as with
          | none => rw [hfa, hca] at h; exact absurd h (by simp)
          | some bs =>
              rw [hfa, hca] at h
              simp only [Option.some.injEq] at h
              subst h
              simp [hfa, ih hca]

/-- A successful `collectSome` means every application succeeded. -/
theorem collectSome_isSome_of_mem {α β : Type} (f : α → Option β) :
    ∀ {l : List α} {ys : List β}, collectSome f l = some ys →
      ∀ a ∈ l, (f a).isSome := by
  intro l
  induction l with
  | nil => intro ys _ a ha; exact absurd ha (by simp)
  | cons b as ih =>
      intro ys h a ha
      unfold collectSome at h
      cases hfb : f b with
      | none => rw [hfb] at h; exact absurd h (by simp)
      | some c =>
          cases hca : collectSome f as with
          | none => rw [hfb, hca] at h; exact absurd h (by simp)
          | some cs =>
              rcases List.mem_cons.mp ha with hab | has
              · subst hab; simp [hfb]
              · exact ih hca a has

/-- Round-half-even is exact on integers divided by 100. -/
theorem pythonRound2_cents (m : ℤ) :
    pythonRound2 ((m : ℚ) / 100) = (m : ℚ) / 100 := by
  have h : ((m : ℚ) / 100) * 100 = (m : ℚ) := by
    field_simp
  unfold pythonRound2 roundHalfEven
  rw [h, Int.fract_intCast, if_pos (by norm_num : (0 : ℚ) < 1 / 2),
    Int.floor_intCast]

/-- A sum of multiples of 1/100 is a multiple of 1/100. -/
theorem sum_div100 (l : List ℚ)
    (h : ∀ q ∈ l, ∃ n : ℤ, q = (n : ℚ) / 100) :
    ∃ m : ℤ, l.sum = (m : ℚ) / 100 := by
  induction l with
  | nil => exact ⟨0, by simp⟩
  | cons a as ih =>
      obtain ⟨n, hn⟩ := h a (List.mem_cons_self a as)
      obtain ⟨m, hm⟩ := ih (fun q hq => h q (List.mem_cons_of_mem a hq))
      refine ⟨n + m, ?_⟩
      rw [List.sum_cons, hn, hm]
      push_cast
      ring

/-- A document whose `username` key is absent is rejected by
`PurchaseResponse`. -/
theorem ofDoc_none_of_no_username {d : StoredDoc}
    (h : d.username = none) : PurchaseResponse.ofDoc d = none := by
  obtain ⟨i, ou, uid2, oit, opr, ots, t⟩ := d
  simp only at h
  subst h
  cases oit <;> cases opr <;> cases ots <;> rfl

/-- A document accepted by `PurchaseResponse` carries a `username`. -/
theorem ofDoc_username_isSome {d : StoredDoc}
    (h : (PurchaseResponse.ofDoc d).isSome) : d.username.isSome := by
  cases hu : d.username with
  | none => rw [ofDoc_none_of_no_username hu] at h; exact absurd h (by simp)
  | some u => simp

/-- Destructuring a successful run of the history endpoint: the query
result is nonempty, prices and response rows all collected, and the
response is the literal built by the endpoint. -/
theorem get_user_purchases_ok {db : List StoredDoc} {uid : String}
    {resp : UserPurchasesResponse}
    (h : get_user_purchases db uid = .ok resp) :
    ∃ prices prs,
      (DatabaseManager.get_user_purchases db uid).isEmpty = false ∧
      collectSome (fun d => d.price)
          (DatabaseManager.get_user_purchases db uid) = some prices ∧
      collectSome PurchaseResponse.ofDoc
          (DatabaseManager.get_user_purchases db uid) = some prs ∧
      resp = { user_id := uid,
               username := some
                 (match (DatabaseManager.get_user_purchases db uid).head? with
                  | some d => d.username.getD "Unknown"
                  | none => "Unknown"),
               total_purchases :=
                 (DatabaseManager.get_user_purchases db uid).length,
               total_spent := pythonRound2 prices.sum,
               purchases := prs } := by
  unfold get_user_purchases at h
  cases hemp : (DatabaseManager.get_user_purchases db uid).isEmpty with
  | true => rw [if_pos (by rw [hemp])] at h; exact absurd h (by simp)
  | false =>
      rw [if_neg (by rw [hemp]; exact Bool.false_ne_true)] at h
      cases hpr : collectSome (fun d => d.price)
          (DatabaseManager.get_user_purchases db uid) with
      | none => rw [hpr] at h; exact absurd h (by simp)
      | some prices =>
          rw [hpr] at h
          cases hdoc : collectSome PurchaseResponse.ofDoc
              (DatabaseManager.get_user_purchases db uid) with
          | none => rw [hdoc] at h; exact absurd h (by simp)
          | some prs =>
              rw [hdoc] at h
              simp only [ApiOutcome.ok.injEq] at h
              exact ⟨prices, prs, rfl, rfl, rfl, h.symm⟩

set_option maxRecDepth 8000 in
/-- C7 counterexample: a user with one persisted purchase priced 1.001
gets a history response whose `total_spent` is 1 — not the sum of their
prices (1.001) — because the endpoint rounds to two decimal places. -/
theorem C7_counterexample :
    get_user_purchases
        [⟨"id1", some "john", "u1", some "Laptop", some (1001 / 1000),
          some "t", 0⟩] "u1" =
      .ok ⟨"u1", some "john", 1, 1,
        [⟨"id1", "john", "u1", "Laptop", 1001 / 1000, "t"⟩]⟩ ∧
    ((1001 : ℚ) / 1000) ≠ 1 := by
  exact ⟨by with_unfolding_all decide, by with_unfolding_all decide⟩

/-- C7 (amended): for every successful history response, `total_purchases`
is the number of the user's persisted records, `total_spent` is the sum of
their prices rounded to two decimal places (hence exactly the sum whenever
every price is a whole number of cents), and the purchases list is built,
in order, from the query result sorted newest first by the derived
timestamp value. -/
theorem C7_amended_totals (db : List StoredDoc) (uid : String)
    (resp : UserPurchasesResponse)
    (h : get_user_purchases db uid = .ok resp) :
    resp.total_purchases = (db.filter (fun d => d.user_id == uid)).length ∧
    resp.total_spent = pythonRound2
      (((db.filter (fun d => d.user_id == uid)).map
          (fun d => d.price.getD 0)).sum) ∧
    ((∀ d ∈ db.filter (fun d => d.user_id == uid),
        ∃ n : ℤ, d.price = some ((n : ℚ) / 100)) →
      resp.total_spent =
        ((db.filter (fun d => d.user_id == uid)).map
            (fun d => d.price.getD 0)).sum) ∧
    List.Sorted byTimestampDesc (DatabaseManager.get_user_purchases db uid) ∧
    collectSome PurchaseResponse.ofDoc
        (DatabaseManager.get_user_purchases db uid) = some resp.purchases := by
  obtain ⟨prices, prs, hemp, hpr, hdoc, hresp⟩ := get_user_purchases_ok h
  have hperm : List.Perm (DatabaseManager.get_user_purchases db uid)
      (db.filter (fun d => d.user_id == uid)) :=
    List.perm_insertionSort byTimestampDesc _
  have hprices := collectSome_map (fun d : StoredDoc => d.price) 0 hpr
  have hsum : prices.sum =
      ((db.filter (fun d => d.user_id == uid)).map
        (fun d => d.price.getD 0)).sum := by
    rw [hprices]
    exact List.Perm.sum_eq (hperm.map _)
  subst hresp
  refine ⟨hperm.length_eq, ?_, ?_, ?_, hdoc⟩
  · show pythonRound2 prices.sum = _
    rw [hsum]
  · intro hc
    show pythonRound2 prices.sum = _
    rw [hsum]
    have hforall : ∀ q ∈ (db.filter (fun d => d.user_id == uid)).map
        (fun d => d.price.getD 0), ∃ n : ℤ, q = (n : ℚ) / 100 := by
      intro q hq
      obtain ⟨d, hd, hdq⟩ := List.mem_map.mp hq
      obtain ⟨n, hn⟩ := hc d hd
      subst hdq
      refine ⟨n, ?_⟩
      show d.price.getD 0 = (n : ℚ) / 100
      rw [hn]
      rfl
    obtain ⟨m, hm⟩ := sum_div100 _ hforall
    rw [hm, pythonRound2_cents]
  · unfold DatabaseManager.get_user_purchases
    exact List.sorted_insertionSort byTimestampDesc _

set_option maxRecDepth 8000 in
/-- Witness for C7 (amended): the scenario with two purchases for `u1`
priced 10 and 20 — the response reports exactly the record count. -/
theorem C7_witness :
    (⟨"u1", some "john", 2, 30,
        [⟨"b", "john", "u1", "Phone", 20, "t2"⟩,
         ⟨"a", "john", "u1", "Laptop", 10, "t1"⟩]⟩ :
      UserPurchasesResponse).total_purchases =
      (([⟨"a", some "john", "u1", some "Laptop", some 10, some "t1", 1⟩,
         ⟨"b", some "john", "u1", some "Phone", some 20, some "t2", 2⟩] :
        List StoredDoc).filter (fun d => d.user_id == "u1")).length :=
  (C7_amended_totals
      [⟨"a", some "john", "u1", some "Laptop", some 10, some "t1", 1⟩,
       ⟨"b", some "john", "u1", some "Phone", some 20, some "t2", 2⟩] "u1"
      ⟨"u1", some "john", 2, 30,
        [⟨"b", "john", "u1", "Phone", 20, "t2"⟩,
         ⟨"a", "john", "u1", "Laptop", 10, "t1"⟩]⟩
      (by with_unfolding_all decide)).1

/-- C10 counterexample: a user whose only (hence newest) persisted record
has no `username` field receives no history response at all — the endpoint
fails with an internal error (the record is rejected when the response
rows are built), so the response never carries the `"Unknown"` default. -/
theorem C10_counterexample :
    get_user_purchases
        [⟨"id1", none, "u1", some "Laptop", some 5, some "t", 0⟩] "u1" =
      ApiOutcome.internalError ∧
    (([⟨"id1", none, "u1", some "Laptop", some 5, some "t", 0⟩] :
        List StoredDoc).filter (fun d => d.user_id == "u1")) ≠ [] := by
  exact ⟨by decide, by decide⟩

/-- C10 (amended): for every successful history response, the `username`
field is taken from the newest persisted record (the head of the
newest-first query result) — older records are never consulted — and that
record necessarily carries a `username`; when any of the user's records
(in particular the newest) has no `username` field, the endpoint returns
an internal error instead of a response, so the `"Unknown"` default is
never observable. -/
theorem C10_amended_username (db : List StoredDoc) (uid : String) :
    (∀ resp, get_user_purchases db uid = .ok resp →
        ∃ d rest, DatabaseManager.get_user_purchases db uid = d :: rest ∧
          d.username.isSome ∧
          resp.username = some (d.username.getD "Unknown")) ∧
    (∀ d ∈ db.filter (fun d2 => d2.user_id == uid), d.username = none →
        get_user_purchases db uid = .internalError) := by
  have hperm : List.Perm (DatabaseManager.get_user_purchases db uid)
      (db.filter (fun d2 => d2.user_id == uid)) :=
    List.perm_insertionSort byTimestampDesc _
  constructor
  · intro resp h
    obtain ⟨prices, prs, hemp, hpr, hdoc, hresp⟩ := get_user_purchases_ok h
    obtain ⟨d, rest, hP⟩ : ∃ d rest,
        DatabaseManager.get_user_purchases db uid = d :: rest := by
      cases hQ : DatabaseManager.get_user_purchases db uid with
      | nil => rw [hQ] at hemp; simp at hemp
      | cons d rest => exact ⟨d, rest, rfl⟩
    subst hresp
    refine ⟨d, rest, hP, ?_, ?_⟩
    · apply ofDoc_username_isSome
      apply collectSome_isSome_of_mem PurchaseResponse.ofDoc hdoc
      rw [hP]
      exact List.mem_cons_self d rest
    · show some _ = some _
      rw [hP]
      rfl
  · intro d hd hnone
    have hdP : d ∈ DatabaseManager.get_user_purchases db uid :=
      hperm.mem_iff.mpr hd
    have hPne : DatabaseManager.get_user_purchases db uid ≠ [] :=
      List.ne_nil_of_mem hdP
    have hemp : (DatabaseManager.get_user_purchases db uid).isEmpty =
        false := by
      cases hQ : DatabaseManager.get_user_purchases db uid with
      | nil => exact absurd hQ hPne
      | cons a as => rfl
    unfold get_user_purchases
    rw [if_neg (by rw [hemp]; exact Bool.false_ne_true)]
    cases hpr : collectSome (fun d2 => d2.price)
        (DatabaseManager.get_user_purchases db uid) with
    | none => rfl
    | some prices =>
        cases hdoc : collectSome PurchaseResponse.ofDoc
            (DatabaseManager.get_user_purchases db uid) with
        | none => rfl
        | some prs =>
            exfalso
            have hsome :=
              collectSome_isSome_of_mem PurchaseResponse.ofDoc hdoc d hdP
            rw [ofDoc_none_of_no_username hnone] at hsome
            exact absurd hsome (by simp)

/-- Witness for C10 (amended): a concrete record without a `username`
makes the endpoint fail with an internal error. -/
theorem C10_witness :
    get_user_purchases
        [⟨"id9", none, "u9", some "Phone", some 7, some "t", 3⟩] "u9" =
      ApiOutcome.internalError :=
  (C10_amended_username
      [⟨"id9", none, "u9", some "Phone", some 7, some "t", 3⟩] "u9").2
    ⟨"id9", none, "u9", some "Phone", some 7, some "t", 3⟩
    (by decide) rfl

end AuraPurchases
